import Mathlib

set_option maxRecDepth 8000
set_option maxHeartbeats 1000000

/-!
Shallow embedding of `src/bmp280_decoder/main.cpp` (BMP280/BME280 raw-register
decoder) and proofs about it.

Modelling conventions:
* A C byte buffer (`const uint8_t *`) is a function `ℕ → ℕ`; every read of
  byte `i` is `d i % 256`, the value of a `uint8_t` cell.  Pointer arithmetic
  `buf + o` is an explicit offset argument `o`.
* Machine integers are `ℤ` with explicit two's-complement wrapping:
  `i32 x = (x + 2^31) % 2^32 - 2^31` and likewise `i64`.  Every C arithmetic
  operation on `int32_t` / `int64_t` is wrapped at its node, so signed
  overflow is modelled as two's-complement wraparound.
* `>>` on signed operands is the arithmetic shift (floor division by `2^k`),
  `<<` is multiplication by `2^k` followed by wrapping, and `/` on `int64_t`
  is C truncation-toward-zero division (`Int.tdiv`).
* The C `float` (32-bit, 24-bit significand) and `double` (64-bit, 53-bit
  significand) values are modelled exactly as rationals: `fl 24 q` / `fl 53 q`
  is the IEEE-754 round-to-nearest-even value of `q` with a 24- / 53-bit
  significand and unbounded exponent (all values arising here are well inside
  the normal range, so exponent overflow/underflow never occurs and is not
  modelled).
-/

/-- Two's-complement wraparound of an integer into the `int32_t` range. -/
def i32 (x : ℤ) : ℤ := (x + 2 ^ 31) % 2 ^ 32 - 2 ^ 31

/-- Two's-complement wraparound of an integer into the `int64_t` range. -/
def i64 (x : ℤ) : ℤ := (x + 2 ^ 63) % 2 ^ 64 - 2 ^ 63

/-- Arithmetic (sign-preserving) right shift: floor division by `2^k`. -/
def asr (x : ℤ) (k : ℕ) : ℤ := Int.fdiv x (2 ^ k)

/-- C `int32_t` addition (wraps on overflow). -/
def add32 (a b : ℤ) : ℤ := i32 (a + b)

/-- C `int32_t` subtraction (wraps on overflow). -/
def sub32 (a b : ℤ) : ℤ := i32 (a - b)

/-- C `int32_t` multiplication (wraps on overflow). -/
def mul32 (a b : ℤ) : ℤ := i32 (a * b)

/-- C `int32_t` left shift `a << k` (wraps on overflow). -/
def shl32 (a : ℤ) (k : ℕ) : ℤ := i32 (a * 2 ^ k)

/-- C `int64_t` addition (wraps on overflow). -/
def add64 (a b : ℤ) : ℤ := i64 (a + b)

/-- C `int64_t` subtraction (wraps on overflow). -/
def sub64 (a b : ℤ) : ℤ := i64 (a - b)

/-- C `int64_t` multiplication (wraps on overflow). -/
def mul64 (a b : ℤ) : ℤ := i64 (a * b)

/-- C `int64_t` left shift `a << k` (wraps on overflow). -/
def shl64 (a : ℤ) (k : ℕ) : ℤ := i64 (a * 2 ^ k)

/-- C `int64_t` division `a / b`: truncation toward zero, with the result
wrapped (the single overflowing case `INT64_MIN / -1` wraps). -/
def div64 (a b : ℤ) : ℤ := i64 (Int.tdiv a b)

/-- Floor of the base-2 logarithm of a positive rational, computed from the
bit lengths of numerator and denominator with one comparison to correct the
off-by-one. Only used on positive arguments. -/
def floorLog2 (q : ℚ) : ℤ :=
  if q.den * 2 ^ Nat.log2 q.num.natAbs ≤ q.num.natAbs * 2 ^ Nat.log2 q.den
  then (Nat.log2 q.num.natAbs : ℤ) - Nat.log2 q.den
  else (Nat.log2 q.num.natAbs : ℤ) - Nat.log2 q.den - 1

/-- Round a rational to the nearest integer, ties to the even integer
(IEEE-754 round-to-nearest-even on the integer grid). -/
def rne (x : ℚ) : ℤ :=
  if 2 * (x - ⌊x⌋) < 1 then ⌊x⌋
  else if 1 < 2 * (x - ⌊x⌋) then ⌊x⌋ + 1
  else if ⌊x⌋ % 2 = 0 then ⌊x⌋ else ⌊x⌋ + 1

/-- Exact value of rounding `q` to a binary floating-point number with a
`prec`-bit significand (round-to-nearest-even, unbounded exponent).
`fl 24` models C `float`, `fl 53` models C `double`. -/
def fl (prec : ℕ) (q : ℚ) : ℚ :=
  if q = 0 then 0
  else (rne (q * 2 ^ ((prec : ℤ) - 1 - floorLog2 |q|)) : ℚ) *
       2 ^ (-(((prec : ℤ) - 1 - floorLog2 |q|)))

/-- A rational is a `prec`-bit binary floating-point value: an integer
significand of at most `prec` bits times a power of two. -/
def IsFloatValue (prec : ℕ) (x : ℚ) : Prop :=
  ∃ m e : ℤ, |m| ≤ 2 ^ prec ∧ x = (m : ℚ) * 2 ^ e

/-- Source `decode20bit` (main.cpp:57-65): big-endian 20-bit ADC sample from
three bytes, assembled in `uint32_t` and stored in an `int32_t`. -/
def decode20bit (d : ℕ → ℕ) (o : ℕ) : ℤ :=
  i32 ((d o % 256) <<< 12 ||| (d (o + 1) % 256) <<< 4 ||| (d (o + 2) % 256) >>> 4 : ℕ)

/-- Source `decodeU16LE` (main.cpp:68-74): little-endian unsigned 16-bit load;
the `uint32_t` intermediate is truncated by the `uint16_t` return type. -/
def decodeU16LE (d : ℕ → ℕ) (o : ℕ) : ℕ :=
  ((d o % 256) ||| (d (o + 1) % 256) <<< 8) % 65536

/-- Source `decodeS16LE` (main.cpp:77-81): the `uint16_t` bit pattern
reinterpreted as two's-complement `int16_t`. -/
def decodeS16LE (d : ℕ → ℕ) (o : ℕ) : ℤ :=
  if decodeU16LE d o < 32768 then (decodeU16LE d o : ℤ)
  else (decodeU16LE d o : ℤ) - 65536

/-- Source `struct Calibration` (main.cpp:36-46).  The source also declares
fields `H2..H5`, but `decodeCalibration` never initialises them and nothing
ever reads them (they hold indeterminate values in C), so they are omitted
from the model. -/
structure Calibration where
  T1 : ℕ
  T2 : ℤ
  T3 : ℤ
  P1 : ℕ
  P2 : ℤ
  P3 : ℤ
  P4 : ℤ
  P5 : ℤ
  P6 : ℤ
  P7 : ℤ
  P8 : ℤ
  P9 : ℤ
  H1 : ℕ

/-- Source `struct Measurement` (main.cpp:49-54): three `float` fields,
default-initialised to `0.0`; their exact values are modelled as rationals. -/
structure Measurement where
  pressure : ℚ
  temp : ℚ
  humidity : ℚ

/-- Source `decodeCalibration` (main.cpp:84-101): fixed-offset little-endian
parse of the 26-byte calibration block. -/
def decodeCalibration (calibration : ℕ → ℕ) : Calibration where
  T1 := decodeU16LE calibration 0
  T2 := decodeS16LE calibration 2
  T3 := decodeS16LE calibration 4
  P1 := decodeU16LE calibration 6
  P2 := decodeS16LE calibration 8
  P3 := decodeS16LE calibration 10
  P4 := decodeS16LE calibration 12
  P5 := decodeS16LE calibration 14
  P6 := decodeS16LE calibration 16
  P7 := decodeS16LE calibration 18
  P8 := decodeS16LE calibration 20
  P9 := decodeS16LE calibration 22
  H1 := calibration 25 % 256

/-- Source main.cpp:120, first temperature statement:
`var1 = ((((temp_raw >> 3) - ((int32_t)dig.T1 << 1))) * ((int32_t)dig.T2)) >> 11`. -/
def tempVar1 (dig : Calibration) (temp_raw : ℤ) : ℤ :=
  asr (mul32 (sub32 (asr temp_raw 3) (shl32 (dig.T1 : ℤ) 1)) dig.T2) 11

/-- Source main.cpp:121, second temperature statement:
`var2 = (((((temp_raw >> 4) - T1) * ((temp_raw >> 4) - T1)) >> 12) * T3) >> 14`. -/
def tempVar2 (dig : Calibration) (temp_raw : ℤ) : ℤ :=
  asr (mul32 (asr (mul32 (sub32 (asr temp_raw 4) (dig.T1 : ℤ))
    (sub32 (asr temp_raw 4) (dig.T1 : ℤ))) 12) dig.T3) 14

/-- Source main.cpp:123: `t_fine = var1 + var2` (`int32_t`). -/
def tFine (dig : Calibration) (temp_raw : ℤ) : ℤ :=
  add32 (tempVar1 dig temp_raw) (tempVar2 dig temp_raw)

/-- Source main.cpp:124: `T = (t_fine * 5 + 128) >> 8` (`int32_t`). -/
def tempT (t_fine : ℤ) : ℤ := asr (add32 (mul32 t_fine 5) 128) 8

/-- Source main.cpp:133-141: the value held by `var1` in the pressure stage
just before the zero test, built from `var1 = t_fine - 128000` through
`var1 = (((1 << 47) + var1)) * P1 >> 33` (`int64_t`). -/
def presVar1 (dig : Calibration) (t_fine : ℤ) : ℤ :=
  asr (mul64 (add64 (shl64 1 47)
    (add64 (asr (mul64 (mul64 (sub64 t_fine 128000) (sub64 t_fine 128000)) dig.P3) 8)
      (shl64 (mul64 (sub64 t_fine 128000) dig.P2) 12))) (dig.P1 : ℤ)) 33

/-- Source main.cpp:133-136: the value held by `var2` in the pressure stage,
from `var2 = var1 * var1 * P6` through `var2 = var2 + (P4 << 35)` (`int64_t`). -/
def presVar2 (dig : Calibration) (t_fine : ℤ) : ℤ :=
  add64 (add64 (mul64 (mul64 (sub64 t_fine 128000) (sub64 t_fine 128000)) dig.P6)
    (shl64 (mul64 (sub64 t_fine 128000) dig.P5) 17)) (shl64 dig.P4 35)

/-- Source main.cpp:144-148: the `int64_t` value of `p` at the end of the
taken `var1 != 0` branch, from `p = 1048576 - adc_P` through
`p = ((p + var1 + var2) >> 8) + (P7 << 4)`. -/
def presP (dig : Calibration) (t_fine adc_P : ℤ) : ℤ :=
  add64
    (asr (add64 (add64
        (div64 (mul64 (sub64 (shl64 (sub64 1048576 adc_P) 31) (presVar2 dig t_fine)) 3125)
          (presVar1 dig t_fine))
        (asr (mul64 (mul64 dig.P9
            (asr (div64 (mul64 (sub64 (shl64 (sub64 1048576 adc_P) 31) (presVar2 dig t_fine)) 3125)
              (presVar1 dig t_fine)) 13))
          (asr (div64 (mul64 (sub64 (shl64 (sub64 1048576 adc_P) 31) (presVar2 dig t_fine)) 3125)
            (presVar1 dig t_fine)) 13)) 25))
      (asr (mul64 dig.P8
        (div64 (mul64 (sub64 (shl64 (sub64 1048576 adc_P) 31) (presVar2 dig t_fine)) 3125)
          (presVar1 dig t_fine))) 19)) 8)
    (shl64 dig.P7 4)

/-- Source main.cpp:128-149, the pressure block: if `var1 != 0` the final `p`
is converted by `p / 256.0` (a `double` division assigned to a `float`);
otherwise `pressure` keeps its default `0.0`. -/
def pressurePart (dig : Calibration) (t_fine adc_P : ℤ) : ℚ :=
  if presVar1 dig t_fine ≠ 0
  then fl 24 (fl 53 (fl 53 ((presP dig t_fine adc_P : ℤ) : ℚ) / 256))
  else 0

/-- Source `decode` (main.cpp:105-152): calibration parse, Stage A
(temperature, producing the shared `t_fine`), Stage B (pressure).
`result.temp = (float)T / 100` is the single-precision value of the
`float`-converted `T` divided by `100`; humidity is never assigned and keeps
its default `0.0`. -/
def decode (calibration measurement : ℕ → ℕ) : Measurement :=
  let dig := decodeCalibration calibration
  let temp_raw := decode20bit measurement 3
  let t_fine := tFine dig temp_raw
  let T := tempT t_fine
  let adc_P := decode20bit measurement 0
  { pressure := pressurePart dig t_fine adc_P
    temp := fl 24 (fl 24 ((T : ℤ) : ℚ) / 100)
    humidity := 0 }

/-- Source main.cpp:10-27: the embedded 26-byte sample calibration block. -/
def calibrationBytes : List ℕ :=
  [0x36, 0x6C, 0x05, 0x68, 0x18, 0xFC, 0xA1, 0x8D, 0x93, 0xD6, 0xD0, 0x0B,
   0xC3, 0x06, 0x3B, 0x01, 0xF9, 0xFF, 0x8C, 0x3C, 0xF8, 0xC6, 0x70, 0x17,
   0x00, 0x00]

/-- Source main.cpp:30-33: the embedded 8-byte sample measurement block. -/
def measurementBytes : List ℕ := [0x6C, 0x07, 0x00, 0x7E, 0x4C, 0x00, 0x00, 0x00]

/-- The sample calibration block as a byte buffer (reads past the array give 0). -/
def sampleCal : ℕ → ℕ := fun i => calibrationBytes.getD i 0

/-- The sample measurement block as a byte buffer (reads past the array give 0). -/
def sampleMeas : ℕ → ℕ := fun i => measurementBytes.getD i 0

/-- Unfolding equation of `decode`: the record it builds, with every local of
the C function expanded. -/
lemma decode_eq (cal meas : ℕ → ℕ) :
    decode cal meas =
      { pressure := pressurePart (decodeCalibration cal)
          (tFine (decodeCalibration cal) (decode20bit meas 3)) (decode20bit meas 0)
        temp := fl 24 (fl 24 ((tempT (tFine (decodeCalibration cal) (decode20bit meas 3)) : ℤ) : ℚ) / 100)
        humidity := 0 } := rfl

/-- Pressure field of the decoded measurement. -/
lemma decode_pressure (cal meas : ℕ → ℕ) :
    (decode cal meas).pressure =
      pressurePart (decodeCalibration cal)
        (tFine (decodeCalibration cal) (decode20bit meas 3)) (decode20bit meas 0) := by
  rw [decode_eq]

/-- Temperature field of the decoded measurement. -/
lemma decode_temp (cal meas : ℕ → ℕ) :
    (decode cal meas).temp =
      fl 24 (fl 24 ((tempT (tFine (decodeCalibration cal) (decode20bit meas 3)) : ℤ) : ℚ) / 100) := by
  rw [decode_eq]

/-- Humidity field of the decoded measurement: never assigned, stays zero. -/
lemma decode_humidity (cal meas : ℕ → ℕ) : (decode cal meas).humidity = 0 := by
  rw [decode_eq]

/-- Rounding a rational that is already an integer returns that integer. -/
lemma rne_intCast (n : ℤ) : rne ((n : ℚ)) = n := by
  unfold rne
  rw [Int.floor_intCast]
  simp

/-- Rounding goes down when the fractional part is below one half. -/
lemma rne_eq_of_lt (x : ℚ) (f : ℤ) (hf : ⌊x⌋ = f) (h : 2 * (x - (f : ℚ)) < 1) :
    rne x = f := by
  unfold rne
  rw [hf, if_pos h]

/-- Rounding goes up when the fractional part is above one half. -/
lemma rne_eq_of_gt (x : ℚ) (f : ℤ) (hf : ⌊x⌋ = f) (h : 1 < 2 * (x - (f : ℚ))) :
    rne x = f + 1 := by
  unfold rne
  rw [hf, if_neg (by linarith), if_pos h]

/-- Evaluation scheme for `fl`: once the exponent and the rounded significand
are known, the result is the significand scaled back. -/
lemma fl_eq_of (prec : ℕ) (q : ℚ) (e m s : ℤ) (hq : q ≠ 0) (he : floorLog2 |q| = e)
    (hs : (prec : ℤ) - 1 - e = s) (hm : rne (q * 2 ^ s) = m) :
    fl prec q = (m : ℚ) * 2 ^ (-s) := by
  unfold fl
  rw [if_neg hq, he, hs, hm]

lemma floorLog2_2345 : floorLog2 |(2345 : ℚ)| = 11 := by
  rw [abs_of_pos (by norm_num)]
  unfold floorLog2
  norm_num [Nat.log2]

lemma floorLog2_tempFrac : floorLog2 |(2345 : ℚ) / 100| = 4 := by
  rw [abs_of_pos (by norm_num)]
  unfold floorLog2
  norm_num [Nat.log2]

lemma fl24_2345 : fl 24 ((2345 : ℚ)) = 2345 := by
  rw [fl_eq_of 24 2345 11 9605120 12 (by norm_num) floorLog2_2345 (by norm_num) (by
    rw [show (2345 : ℚ) * 2 ^ (12 : ℤ) = ((9605120 : ℤ) : ℚ) by norm_num]
    exact rne_intCast 9605120)]
  norm_num

lemma fl53_2345 : fl 53 ((2345 : ℚ)) = 2345 := by
  rw [fl_eq_of 53 2345 11 5156709534269440 41 (by norm_num) floorLog2_2345 (by norm_num) (by
    rw [show (2345 : ℚ) * 2 ^ (41 : ℤ) =
        ((5156709534269440 : ℤ) : ℚ) by norm_num]
    exact rne_intCast 5156709534269440)]
  norm_num

/-- The sample temperature in hundredths, `2345 / 100`, rounded to `float`:
`23.45` is not a binary rational, and single precision rounds it up. -/
lemma fl24_tempFrac : fl 24 ((2345 : ℚ) / 100) = 6147277 / 262144 := by
  rw [fl_eq_of 24 ((2345 : ℚ) / 100) 4 12294554 19 (by norm_num) floorLog2_tempFrac
    (by norm_num) (by
    apply rne_eq_of_gt _ 12294553
    · rw [show (2345 : ℚ) / 100 * 2 ^ (19 : ℤ) = 12294553 + 3 / 5 by norm_num,
        Int.floor_eq_iff] <;> norm_num
    · norm_num)]
  norm_num

/-- The sample temperature in hundredths rounded to `double`: a different,
finer value than the `float` one. -/
lemma fl53_tempFrac : fl 53 ((2345 : ℚ) / 100) = 6600588203864883 / 281474976710656 := by
  rw [fl_eq_of 53 ((2345 : ℚ) / 100) 4 6600588203864883 48 (by norm_num) floorLog2_tempFrac
    (by norm_num) (by
    apply rne_eq_of_lt _ 6600588203864883
    · rw [show (2345 : ℚ) / 100 * 2 ^ (48 : ℤ) = 6600588203864883 + 1 / 5 by norm_num,
        Int.floor_eq_iff] <;> norm_num
    · norm_num)]
  norm_num

lemma floorLog2_25450028 : floorLog2 |(25450028 : ℚ)| = 24 := by
  rw [abs_of_pos (by norm_num)]
  unfold floorLog2
  norm_num [Nat.log2]

lemma fl53_presInt : fl 53 ((25450028 : ℚ)) = 25450028 := by
  rw [fl_eq_of 53 25450028 24 6831689871392768 28 (by norm_num) floorLog2_25450028
    (by norm_num) (by
    rw [show (25450028 : ℚ) * 2 ^ (28 : ℤ) =
        ((6831689871392768 : ℤ) : ℚ) by norm_num]
    exact rne_intCast 6831689871392768)]
  norm_num

lemma floorLog2_presFrac : floorLog2 |(6362507 : ℚ) / 64| = 16 := by
  rw [abs_of_pos (by norm_num)]
  unfold floorLog2
  norm_num [Nat.log2]

/-- The sample pressure `25450028 / 256 = 6362507 / 64` Pa fits in 23 bits of
significand, so `double` keeps it exactly. -/
lemma fl53_presFrac : fl 53 ((6362507 : ℚ) / 64) = 6362507 / 64 := by
  rw [fl_eq_of 53 ((6362507 : ℚ) / 64) 16 6831689871392768 36 (by norm_num) floorLog2_presFrac
    (by norm_num) (by
    rw [show (6362507 : ℚ) / 64 * 2 ^ (36 : ℤ) =
        ((6831689871392768 : ℤ) : ℚ) by norm_num]
    exact rne_intCast 6831689871392768)]
  norm_num

/-- The sample pressure also fits `float` exactly. -/
lemma fl24_presFrac : fl 24 ((6362507 : ℚ) / 64) = 6362507 / 64 := by
  rw [fl_eq_of 24 ((6362507 : ℚ) / 64) 16 12725014 7 (by norm_num) floorLog2_presFrac
    (by norm_num) (by
    rw [show (6362507 : ℚ) / 64 * 2 ^ (7 : ℤ) = ((12725014 : ℤ) : ℚ) by norm_num]
    exact rne_intCast 12725014)]
  norm_num

/-- The branch structure of `rne` only ever returns the floor or its successor. -/
lemma rne_cases (x : ℚ) : rne x = ⌊x⌋ ∨ rne x = ⌊x⌋ + 1 := by
  unfold rne
  split_ifs <;> simp

/-- A value strictly inside `(-n, n)` rounds to an integer of magnitude at most `n`. -/
lemma abs_rne_le (x : ℚ) (n : ℤ) (h : |x| < (n : ℚ)) : |rne x| ≤ n := by
  obtain ⟨h1, h2⟩ := abs_lt.mp h
  have hf1 : -n ≤ ⌊x⌋ := Int.le_floor.mpr (by push_cast; linarith)
  have hf2 : ⌊x⌋ < n := Int.floor_lt.mpr h2
  rcases rne_cases x with hr | hr <;> rw [hr] <;> rw [abs_le] <;> constructor <;> omega

/-- The exponent returned by `floorLog2` is not too small: a positive rational
is strictly below `2 ^ (floorLog2 q + 1)`. -/
lemma floorLog2_lt (q : ℚ) (hq : 0 < q) : q < (2 : ℚ) ^ (floorLog2 q + 1) := by
  have hnum : 0 < q.num := Rat.num_pos.mpr hq
  have hden : (0 : ℚ) < (q.den : ℚ) := by exact_mod_cast q.pos
  have hqa : ((q.num.natAbs : ℤ)) = q.num := Int.natAbs_of_nonneg hnum.le
  unfold floorLog2
  set a := q.num.natAbs with ha
  set d := q.den with hd
  have hq_eq : q = ((a : ℕ) : ℚ) / ((d : ℕ) : ℚ) := by
    rw [show ((a : ℕ) : ℚ) = (q.num : ℚ) by exact_mod_cast hqa]
    exact (Rat.num_div_den q).symm
  have hA : ((a : ℕ) : ℚ) < 2 ^ (Nat.log2 a + 1) := by exact_mod_cast Nat.lt_log2_self
  have hB : (2 : ℚ) ^ Nat.log2 d ≤ ((d : ℕ) : ℚ) := by
    exact_mod_cast Nat.log2_self_le q.den_nz
  set la := Nat.log2 a with hla
  set lb := Nat.log2 d with hlb
  split_ifs with hcond
  · rw [show (la : ℤ) - lb + 1 = ((la + 1 : ℕ) : ℤ) - ((lb : ℕ) : ℤ) by push_cast; ring,
      zpow_sub₀ (two_ne_zero), zpow_natCast, zpow_natCast, hq_eq]
    rw [div_lt_div_iff hden (pow_pos two_pos _)]
    calc ((a : ℕ) : ℚ) * 2 ^ lb
        < 2 ^ (la + 1) * 2 ^ lb := mul_lt_mul_of_pos_right hA (pow_pos two_pos _)
      _ ≤ 2 ^ (la + 1) * (d : ℚ) := mul_le_mul_of_nonneg_left hB (pow_nonneg (by norm_num) _)
  · rw [show (la : ℤ) - lb - 1 + 1 = ((la : ℕ) : ℤ) - ((lb : ℕ) : ℤ) by push_cast; ring,
      zpow_sub₀ (two_ne_zero), zpow_natCast, zpow_natCast, hq_eq]
    rw [div_lt_div_iff hden (pow_pos two_pos _)]
    have hcond' : a * 2 ^ lb < d * 2 ^ la := Nat.lt_of_not_le hcond
    calc ((a : ℕ) : ℚ) * 2 ^ lb
        < ((d : ℕ) : ℚ) * 2 ^ la := by exact_mod_cast hcond'
      _ = 2 ^ la * (d : ℚ) := by ring

/-- Whatever `fl prec` produces is a `prec`-bit floating-point value. -/
lemma fl_isFloatValue (prec : ℕ) (q : ℚ) : IsFloatValue prec (fl prec q) := by
  by_cases hq : q = 0
  · exact ⟨0, 0, by norm_num, by simp [fl, hq]⟩
  · refine ⟨rne (q * 2 ^ ((prec : ℤ) - 1 - floorLog2 |q|)),
      -(((prec : ℤ) - 1 - floorLog2 |q|)), ?_, ?_⟩
    · apply abs_rne_le
      have habs : 0 < |q| := abs_pos.mpr hq
      have h1 : |q| < 2 ^ (floorLog2 |q| + 1) := floorLog2_lt |q| habs
      have hzp : (0 : ℚ) < 2 ^ ((prec : ℤ) - 1 - floorLog2 |q|) := zpow_pos (by norm_num) _
      rw [abs_mul, abs_of_pos hzp]
      calc |q| * 2 ^ ((prec : ℤ) - 1 - floorLog2 |q|)
          < 2 ^ (floorLog2 |q| + 1) * 2 ^ ((prec : ℤ) - 1 - floorLog2 |q|) :=
            mul_lt_mul_of_pos_right h1 hzp
        _ = 2 ^ (floorLog2 |q| + 1 + ((prec : ℤ) - 1 - floorLog2 |q|)) :=
            (zpow_add₀ (two_ne_zero) _ _).symm
        _ = 2 ^ ((prec : ℕ) : ℤ) := by ring_nf
        _ = ((2 ^ prec : ℤ) : ℚ) := by rw [zpow_natCast]; push_cast; rfl
    · unfold fl
      rw [if_neg hq]

/-- Bit-level fact behind the little-endian decoders: a low byte and a
shifted high byte occupy disjoint bits, so their `or` is a sum. -/
lemma lor_shl8 (a b : ℕ) (ha : a < 2 ^ 8) : a ||| (b <<< 8) = 2 ^ 8 * b + a := by
  apply Nat.eq_of_testBit_eq
  intro j
  rw [Nat.testBit_or, Nat.testBit_shiftLeft, Nat.testBit_mul_pow_two_add b ha j]
  by_cases h : j < 8
  · have h' : ¬(j ≥ 8) := by omega
    simp [h, h']
  · have h8 : j ≥ 8 := by omega
    have hz : a.testBit j = false :=
      Nat.testBit_lt_two_pow (lt_of_lt_of_le ha (Nat.pow_le_pow_right (by norm_num) h8))
    simp [h, h8, hz]

/-- Wrapping to `int32_t` is the identity on values already in range. -/
lemma i32_eq_self (x : ℤ) (h1 : -(2 ^ 31) ≤ x) (h2 : x < 2 ^ 31) : i32 x = x := by
  unfold i32
  omega

/-- Value of the temperature field on the embedded sample data: the exact
single-precision float closest to `23.45` °C. -/
lemma decode_sample_temp :
    (decode sampleCal sampleMeas).temp = 6147277 / 262144 := by
  have h1 : tempT (tFine (decodeCalibration sampleCal) (decode20bit sampleMeas 3)) = 2345 := by
    decide
  rw [decode_temp, h1, show ((2345 : ℤ) : ℚ) = (2345 : ℚ) by norm_num, fl24_2345]
  exact fl24_tempFrac

/-- Value of the pressure field on the embedded sample data:
`6362507 / 64 = 99414.171875` Pa, which both `double` and `float` hold exactly. -/
lemma decode_sample_pressure :
    (decode sampleCal sampleMeas).pressure = 6362507 / 64 := by
  have hvar : presVar1 (decodeCalibration sampleCal)
      (tFine (decodeCalibration sampleCal) (decode20bit sampleMeas 3)) = 595489551 := by decide
  have hp : presP (decodeCalibration sampleCal)
      (tFine (decodeCalibration sampleCal) (decode20bit sampleMeas 3))
      (decode20bit sampleMeas 0) = 25450028 := by decide
  rw [decode_pressure]
  unfold pressurePart
  rw [hvar, hp, if_pos (by norm_num : (595489551 : ℤ) ≠ 0),
    show ((25450028 : ℤ) : ℚ) = (25450028 : ℚ) by norm_num, fl53_presInt,
    show (25450028 : ℚ) / 256 = 6362507 / 64 by norm_num, fl53_presFrac, fl24_presFrac]

/-- The two-byte decoders read only their two bytes. -/
lemma decodeU16LE_congr {c c' : ℕ → ℕ} (o : ℕ) (h0 : c o = c' o)
    (h1 : c (o + 1) = c' (o + 1)) : decodeU16LE c o = decodeU16LE c' o := by
  unfold decodeU16LE
  rw [h0, h1]

lemma decodeS16LE_congr {c c' : ℕ → ℕ} (o : ℕ) (h0 : c o = c' o)
    (h1 : c (o + 1) = c' (o + 1)) : decodeS16LE c o = decodeS16LE c' o := by
  unfold decodeS16LE
  rw [decodeU16LE_congr o h0 h1]

/-- The 20-bit decoder reads only its three bytes. -/
lemma decode20bit_congr {c c' : ℕ → ℕ} (o : ℕ) (h0 : c o = c' o)
    (h1 : c (o + 1) = c' (o + 1)) (h2 : c (o + 2) = c' (o + 2)) :
    decode20bit c o = decode20bit c' o := by
  unfold decode20bit
  rw [h0, h1, h2]

/-- The Stage A first statement uses only `T1` and `T2` of the calibration. -/
lemma tempVar1_congr {d1 d2 : Calibration} (h1 : d1.T1 = d2.T1) (h2 : d1.T2 = d2.T2)
    (r : ℤ) : tempVar1 d1 r = tempVar1 d2 r := by
  unfold tempVar1
  rw [h1, h2]

/-- The Stage A second statement uses only `T1` and `T3` of the calibration. -/
lemma tempVar2_congr {d1 d2 : Calibration} (h1 : d1.T1 = d2.T1) (h3 : d1.T3 = d2.T3)
    (r : ℤ) : tempVar2 d1 r = tempVar2 d2 r := by
  unfold tempVar2
  rw [h1, h3]

/-- `t_fine` uses only `T1`, `T2`, `T3` of the calibration. -/
lemma tFine_congr {d1 d2 : Calibration} (h1 : d1.T1 = d2.T1) (h2 : d1.T2 = d2.T2)
    (h3 : d1.T3 = d2.T3) (r : ℤ) : tFine d1 r = tFine d2 r := by
  unfold tFine
  rw [tempVar1_congr h1 h2, tempVar2_congr h1 h3]

/-- The pressure `var1` value uses only `P1`, `P2`, `P3`. -/
lemma presVar1_congr {d1 d2 : Calibration} (h1 : d1.P1 = d2.P1) (h2 : d1.P2 = d2.P2)
    (h3 : d1.P3 = d2.P3) (t : ℤ) : presVar1 d1 t = presVar1 d2 t := by
  unfold presVar1
  rw [h1, h2, h3]

/-- The pressure `var2` value uses only `P4`, `P5`, `P6`. -/
lemma presVar2_congr {d1 d2 : Calibration} (h4 : d1.P4 = d2.P4) (h5 : d1.P5 = d2.P5)
    (h6 : d1.P6 = d2.P6) (t : ℤ) : presVar2 d1 t = presVar2 d2 t := by
  unfold presVar2
  rw [h4, h5, h6]

/-- The final integer pressure uses only `P1..P9`. -/
lemma presP_congr {d1 d2 : Calibration} (h1 : d1.P1 = d2.P1) (h2 : d1.P2 = d2.P2)
    (h3 : d1.P3 = d2.P3) (h4 : d1.P4 = d2.P4) (h5 : d1.P5 = d2.P5) (h6 : d1.P6 = d2.P6)
    (h7 : d1.P7 = d2.P7) (h8 : d1.P8 = d2.P8) (h9 : d1.P9 = d2.P9) (t a : ℤ) :
    presP d1 t a = presP d2 t a := by
  unfold presP
  rw [presVar1_congr h1 h2 h3, presVar2_congr h4 h5 h6, h7, h8, h9]

/-- The pressure block of `decode` uses only `P1..P9`. -/
lemma pressurePart_congr {d1 d2 : Calibration} (h1 : d1.P1 = d2.P1) (h2 : d1.P2 = d2.P2)
    (h3 : d1.P3 = d2.P3) (h4 : d1.P4 = d2.P4) (h5 : d1.P5 = d2.P5) (h6 : d1.P6 = d2.P6)
    (h7 : d1.P7 = d2.P7) (h8 : d1.P8 = d2.P8) (h9 : d1.P9 = d2.P9) (t a : ℤ) :
    pressurePart d1 t a = pressurePart d2 t a := by
  unfold pressurePart
  rw [presVar1_congr h1 h2 h3, presP_congr h1 h2 h3 h4 h5 h6 h7 h8 h9]

/-- Error kind of the checked decoding boundary (spec §7). -/
inductive DecodeError where
  | outOfRange
deriving DecidableEq

/-- Modelled from the spec: the C source takes a raw `const uint8_t *` with no
length information, so the buffer-bounds check of spec §4.2/§7 ("implementers
should bound-check and fail with an `OutOfRange` error kind if the buffer is
shorter than 26 bytes", "must be surfaced to the caller rather than reading
out-of-bounds memory") has no counterpart under `src/`; this definition adds
exactly that check around `decodeCalibration`, on a length-carrying buffer. -/
def decodeCalibrationChecked (buf : List ℕ) : Except DecodeError Calibration :=
  if buf.length < 26 then .error .outOfRange
  else .ok (decodeCalibration (fun i => buf.getD i 0))

/-- A 20-byte truncation of the sample calibration block. -/
def shortCalBytes : List ℕ := calibrationBytes.take 20

/-- Little-endian byte pair of the two's-complement representation of a
16-bit integer, as worded in the round-trip claim. -/
def s16ToBytesLE (v : ℤ) : ℕ → ℕ := fun i =>
  if i = 0 then (v % 65536).toNat % 256
  else if i = 1 then (v % 65536).toNat / 256
  else 0

/-- The decoder as the specification's data model describes it (claim C9):
the same integer pipeline, but with the `Measurement` fields carried as
float64 values, i.e. the final conversions rounded to a 53-bit significand.
Used only as the comparison point for the actual 32-bit `float` fields. -/
def decodeFloat64 (cal meas : ℕ → ℕ) : Measurement :=
  let dig := decodeCalibration cal
  let temp_raw := decode20bit meas 3
  let t_fine := tFine dig temp_raw
  let T := tempT t_fine
  let adc_P := decode20bit meas 0
  { pressure := if presVar1 dig t_fine ≠ 0
      then fl 53 ((presP dig t_fine adc_P : ℤ) / 256 : ℚ)
      else 0
    temp := fl 53 ((T : ℤ) / 100 : ℚ)
    humidity := 0 }

/-- With a zero pressure `var1` the division branch is skipped and the
pressure field keeps its `0.0` default. -/
lemma pressurePart_eq_zero (dig : Calibration) (t a : ℤ) (h : presVar1 dig t = 0) :
    pressurePart dig t a = 0 := by
  unfold pressurePart
  rw [h]
  simp

/-- A calibration with `P1 = 0` forces the pressure `var1` to zero. -/
lemma presVar1_eq_zero_of_P1 (dig : Calibration) (t : ℤ) (h : dig.P1 = 0) :
    presVar1 dig t = 0 := by
  unfold presVar1
  rw [h]
  norm_num [mul64, i64, asr, Int.zero_fdiv]

/-- Claim C1: `decodeCalibration` on the 26-byte sample block yields exactly
T1=27702, T2=26629, T3=-1000, P1=36257, P2=-10605, P3=3024, P4=1731, P5=315,
P6=-7, P7=15500, P8=-14600, P9=6000, and every field is decoded little-endian
from its fixed offset (T1@0, T2@2, T3@4, P1@6, P2@8, P3@10, P4@12, P5@14,
P6@16, P7@18, P8@20, P9@22, H1@25). -/
theorem C1_calibration_known_vector :
    ((decodeCalibration sampleCal).T1 = 27702 ∧ (decodeCalibration sampleCal).T2 = 26629 ∧
     (decodeCalibration sampleCal).T3 = -1000 ∧ (decodeCalibration sampleCal).P1 = 36257 ∧
     (decodeCalibration sampleCal).P2 = -10605 ∧ (decodeCalibration sampleCal).P3 = 3024 ∧
     (decodeCalibration sampleCal).P4 = 1731 ∧ (decodeCalibration sampleCal).P5 = 315 ∧
     (decodeCalibration sampleCal).P6 = -7 ∧ (decodeCalibration sampleCal).P7 = 15500 ∧
     (decodeCalibration sampleCal).P8 = -14600 ∧ (decodeCalibration sampleCal).P9 = 6000 ∧
     (decodeCalibration sampleCal).H1 = 0) ∧
    (∀ d : ℕ → ℕ,
      (decodeCalibration d).T1 = decodeU16LE d 0 ∧ (decodeCalibration d).T2 = decodeS16LE d 2 ∧
      (decodeCalibration d).T3 = decodeS16LE d 4 ∧ (decodeCalibration d).P1 = decodeU16LE d 6 ∧
      (decodeCalibration d).P2 = decodeS16LE d 8 ∧ (decodeCalibration d).P3 = decodeS16LE d 10 ∧
      (decodeCalibration d).P4 = decodeS16LE d 12 ∧ (decodeCalibration d).P5 = decodeS16LE d 14 ∧
      (decodeCalibration d).P6 = decodeS16LE d 16 ∧ (decodeCalibration d).P7 = decodeS16LE d 18 ∧
      (decodeCalibration d).P8 = decodeS16LE d 20 ∧ (decodeCalibration d).P9 = decodeS16LE d 22 ∧
      (decodeCalibration d).H1 = d 25 % 256) :=
  ⟨by decide, fun d => ⟨rfl, rfl, rfl, rfl, rfl, rfl, rfl, rfl, rfl, rfl, rfl, rfl, rfl⟩⟩

/-- Claim C2: for every measurement block and calibration, Stage A of `decode`
computes, in 32-bit signed arithmetic with arithmetic right shifts,
`temp_raw = decode20bit(meas+3)`,
`var1 = (((temp_raw >> 3) - (T1 << 1)) * T2) >> 11`,
`var2 = (((((temp_raw >> 4) - T1) * ((temp_raw >> 4) - T1)) >> 12) * T3) >> 14`,
`t_fine = var1 + var2`, `T = (t_fine * 5 + 128) >> 8`, puts the float value of
`T / 100.0` into the result's temperature, and passes that same `t_fine` into
the pressure stage. -/
theorem C2_stageA_formulas (cal meas : ℕ → ℕ) :
    (decode cal meas).temp =
      fl 24 (fl 24 ((asr (add32 (mul32 (add32
          (asr (mul32 (sub32 (asr (decode20bit meas 3) 3)
            (shl32 ((decodeCalibration cal).T1 : ℤ) 1)) (decodeCalibration cal).T2) 11)
          (asr (mul32 (asr (mul32
            (sub32 (asr (decode20bit meas 3) 4) ((decodeCalibration cal).T1 : ℤ))
            (sub32 (asr (decode20bit meas 3) 4) ((decodeCalibration cal).T1 : ℤ))) 12)
            (decodeCalibration cal).T3) 14)) 5) 128) 8 : ℤ) : ℚ) / 100) ∧
    (decode cal meas).pressure =
      pressurePart (decodeCalibration cal)
        (add32
          (asr (mul32 (sub32 (asr (decode20bit meas 3) 3)
            (shl32 ((decodeCalibration cal).T1 : ℤ) 1)) (decodeCalibration cal).T2) 11)
          (asr (mul32 (asr (mul32
            (sub32 (asr (decode20bit meas 3) 4) ((decodeCalibration cal).T1 : ℤ))
            (sub32 (asr (decode20bit meas 3) 4) ((decodeCalibration cal).T1 : ℤ))) 12)
            (decodeCalibration cal).T3) 14))
        (decode20bit meas 0) :=
  ⟨(decode_temp cal meas).trans (by unfold tempT tFine tempVar1 tempVar2; rfl),
   (decode_pressure cal meas).trans (by unfold tFine tempVar1 tempVar2; rfl)⟩

/-- Claim C3: whenever the pressure stage's 64-bit `var1` value
`(((1 << 47) + var1) * P1) >> 33` is zero — in particular for any calibration
with `P1 = 0` — the division by `var1` is skipped and the returned pressure is
exactly `0.0`, a defined degenerate result. -/
theorem C3_pressure_degenerate (cal meas : ℕ → ℕ) :
    (presVar1 (decodeCalibration cal) (tFine (decodeCalibration cal) (decode20bit meas 3)) = 0 →
      (decode cal meas).pressure = 0) ∧
    ((decodeCalibration cal).P1 = 0 →
      presVar1 (decodeCalibration cal) (tFine (decodeCalibration cal) (decode20bit meas 3)) = 0 ∧
      (decode cal meas).pressure = 0) := by
  constructor
  · intro h
    rw [decode_pressure]
    exact pressurePart_eq_zero _ _ _ h
  · intro hP1
    have h0 := presVar1_eq_zero_of_P1 (decodeCalibration cal)
      (tFine (decodeCalibration cal) (decode20bit meas 3)) hP1
    refine ⟨h0, ?_⟩
    rw [decode_pressure]
    exact pressurePart_eq_zero _ _ _ h0

/-- The sample calibration with the two `P1` bytes zeroed out. -/
def calP1Zero : ℕ → ℕ := fun i => if i = 6 ∨ i = 7 then 0 else sampleCal i

/-- Witness for C3: on a concrete calibration with `P1 = 0` the pressure
stays `0.0`. -/
theorem C3_pressure_degenerate_witness :
    (decodeCalibration calP1Zero).P1 = 0 ∧
    presVar1 (decodeCalibration calP1Zero)
      (tFine (decodeCalibration calP1Zero) (decode20bit sampleMeas 3)) = 0 ∧
    (decode calP1Zero sampleMeas).pressure = 0 := by
  have hP1 : (decodeCalibration calP1Zero).P1 = 0 := by decide
  obtain ⟨h1, _⟩ := (C3_pressure_degenerate calP1Zero sampleMeas).2 hP1
  exact ⟨hP1, h1, (C3_pressure_degenerate calP1Zero sampleMeas).1 h1⟩

/-- Claim C4: on the embedded sample arrays, `decode` produces the temperature
given by the Stage A integer formula (T = 2345 hundredths, i.e. the float
value of `2345 / 100`), a non-zero pressure, and zero humidity — and humidity
is `0.0` for every input. -/
theorem C4_end_to_end_sample :
    tempT (tFine (decodeCalibration sampleCal) (decode20bit sampleMeas 3)) = 2345 ∧
    (decode sampleCal sampleMeas).temp = fl 24 ((2345 : ℚ) / 100) ∧
    (decode sampleCal sampleMeas).temp = 6147277 / 262144 ∧
    (decode sampleCal sampleMeas).pressure = 6362507 / 64 ∧
    (decode sampleCal sampleMeas).pressure ≠ 0 ∧
    (∀ c m : ℕ → ℕ, (decode c m).humidity = 0) := by
  refine ⟨by decide, ?_, decode_sample_temp, decode_sample_pressure, ?_,
    fun c m => decode_humidity c m⟩
  · rw [decode_sample_temp, fl24_tempFrac]
  · rw [decode_sample_pressure]
    norm_num

/-- Claim C5: for every 16-bit signed integer `v`, `decodeS16LE` applied to
the two little-endian bytes of `v`'s two's-complement representation returns
`v` exactly; in particular bytes `0x93, 0xD6` (sample offset 8) decode to
`-10605`. -/
theorem C5_s16_roundtrip :
    (∀ v : ℤ, -32768 ≤ v → v ≤ 32767 → decodeS16LE (s16ToBytesLE v) 0 = v) ∧
    decodeS16LE sampleCal 8 = -10605 := by
  refine ⟨fun v h1 h2 => ?_, by decide⟩
  have hdu : decodeU16LE (s16ToBytesLE v) 0 = (v % 65536).toNat := by
    unfold decodeU16LE s16ToBytesLE
    norm_num
    rw [Nat.mod_eq_of_lt (show (v % 65536).toNat / 256 < 256 by omega),
      lor_shl8 ((v % 65536).toNat % 256) ((v % 65536).toNat / 256) (by omega)]
    omega
  unfold decodeS16LE
  rw [hdu]
  split_ifs with h <;> omega

/-- Witness for C5: the round-trip theorem applied at `v = -10605`. -/
theorem C5_s16_roundtrip_witness :
    (-32768 : ℤ) ≤ -10605 ∧ (-10605 : ℤ) ≤ 32767 ∧
    decodeS16LE (s16ToBytesLE (-10605)) 0 = -10605 :=
  ⟨by norm_num, by norm_num,
    C5_s16_roundtrip.1 (-10605) (by norm_num) (by norm_num)⟩

/-- Claim C6: `decode20bit` returns exactly the 20-bit big-endian-in-bytes
value `(b0 << 12) | (b1 << 4) | (b2 >> 4)`, always in `[0, 1048575]` with no
sign extension; on the sample measurement, bytes 3..5 = {0x7E,0x4C,0x00} give
517312 and bytes 0..2 = {0x6C,0x07,0x00} give 442480. -/
theorem C6_decode20bit_bounds :
    (∀ (d : ℕ → ℕ) (o : ℕ),
      decode20bit d o =
        ((d o % 256) <<< 12 ||| (d (o + 1) % 256) <<< 4 ||| (d (o + 2) % 256) >>> 4 : ℕ) ∧
      0 ≤ decode20bit d o ∧ decode20bit d o ≤ 1048575) ∧
    decode20bit sampleMeas 3 = 517312 ∧ decode20bit sampleMeas 0 = 442480 := by
  refine ⟨fun d o => ?_, by decide, by decide⟩
  have h1 : (d o % 256) <<< 12 < 2 ^ 20 := by
    rw [Nat.shiftLeft_eq]
    have := Nat.mod_lt (d o) (show 0 < 256 by norm_num)
    omega
  have h2 : (d (o + 1) % 256) <<< 4 < 2 ^ 20 := by
    rw [Nat.shiftLeft_eq]
    have := Nat.mod_lt (d (o + 1)) (show 0 < 256 by norm_num)
    omega
  have h3 : (d (o + 2) % 256) >>> 4 < 2 ^ 20 := by
    rw [Nat.shiftRight_eq_div_pow]
    have := Nat.mod_lt (d (o + 2)) (show 0 < 256 by norm_num)
    have := Nat.div_le_self (d (o + 2) % 256) (2 ^ 4)
    omega
  have hb := Nat.or_lt_two_pow (Nat.or_lt_two_pow h1 h2) h3
  have hcast : decode20bit d o =
      ((d o % 256) <<< 12 ||| (d (o + 1) % 256) <<< 4 ||| (d (o + 2) % 256) >>> 4 : ℕ) := by
    unfold decode20bit
    apply i32_eq_self
    · exact le_trans (by norm_num) (Int.natCast_nonneg _)
    · exact_mod_cast lt_trans hb (by norm_num)
  refine ⟨hcast, ?_, ?_⟩
  · rw [hcast]
    exact Int.natCast_nonneg _
  · rw [hcast]
    exact_mod_cast Nat.le_of_lt_succ (by omega : _ < 1048575 + 1)

/-- Claim C7: calling the (spec-modelled) checked calibration decode with a
buffer shorter than 26 bytes fails with `OutOfRange` before any byte is read,
and no partial `Calibration` is produced. -/
theorem C7_calibration_bounds_check (buf : List ℕ) (h : buf.length < 26) :
    decodeCalibrationChecked buf = Except.error DecodeError.outOfRange := by
  unfold decodeCalibrationChecked
  rw [if_pos h]

/-- Witness for C7: a concrete 20-byte buffer is rejected. -/
theorem C7_calibration_bounds_check_witness :
    shortCalBytes.length < 26 ∧
    decodeCalibrationChecked shortCalBytes = Except.error DecodeError.outOfRange :=
  ⟨by decide, C7_calibration_bounds_check shortCalBytes (by decide)⟩

/-- Claim C8: `decode` is deterministic — identical calibration and
measurement bytes give identical `Measurement` values; the result is a pure
function of the two buffers. -/
theorem C8_decode_deterministic (cal cal' meas meas' : ℕ → ℕ)
    (hc : ∀ i, cal i = cal' i) (hm : ∀ i, meas i = meas' i) :
    decode cal meas = decode cal' meas' := by
  rw [funext hc, funext hm]

/-- Witness for C8: two invocations on the sample buffers agree. -/
theorem C8_decode_deterministic_witness :
    decode sampleCal sampleMeas = decode sampleCal sampleMeas :=
  C8_decode_deterministic sampleCal sampleCal sampleMeas sampleMeas
    (fun _ => rfl) (fun _ => rfl)

/-- Claim C9, amended: the `Measurement` fields produced by `decode` are
32-bit single-precision float values (24-bit significands), not float64
values. -/
theorem C9_measurement_float32 (cal meas : ℕ → ℕ) :
    IsFloatValue 24 (decode cal meas).pressure ∧
    IsFloatValue 24 (decode cal meas).temp ∧
    IsFloatValue 24 (decode cal meas).humidity := by
  refine ⟨?_, ?_, ?_⟩
  · rw [decode_pressure]
    unfold pressurePart
    split_ifs
    · exact fl_isFloatValue 24 _
    · exact ⟨0, 0, by norm_num, by norm_num⟩
  · rw [decode_temp]
    exact fl_isFloatValue 24 _
  · rw [decode_humidity]
    exact ⟨0, 0, by norm_num, by norm_num⟩

/-- Counterexample to claim C9 as stated: on the sample input the temperature
field differs from the value a float64 field would carry (the float64
rounding of `2345 / 100`), because the C `Measurement` fields are 32-bit
`float`. -/
theorem C9_measurement_not_float64 :
    (decode sampleCal sampleMeas).temp ≠ (decodeFloat64 sampleCal sampleMeas).temp := by
  have h1 : tempT (tFine (decodeCalibration sampleCal) (decode20bit sampleMeas 3)) = 2345 := by
    decide
  have h64 : (decodeFloat64 sampleCal sampleMeas).temp =
      6600588203864883 / 281474976710656 := by
    show fl 53 ((tempT (tFine (decodeCalibration sampleCal) (decode20bit sampleMeas 3)) : ℤ)
      / 100 : ℚ) = _
    rw [h1, show (((2345 : ℤ) : ℚ) / 100) = (2345 : ℚ) / 100 by norm_num]
    exact fl53_tempFrac
  rw [decode_sample_temp, h64]
  norm_num

/-- The sample calibration with the reserved/H1 bytes 24 and 25 changed. -/
def calReservedMod : ℕ → ℕ := fun i => if i = 24 ∨ i = 25 then 77 else sampleCal i

/-- The sample measurement with the unused tail bytes 6 and 7 changed. -/
def measTailMod : ℕ → ℕ := fun i => if i = 6 ∨ i = 7 then 99 else sampleMeas i

/-- Claim C10: the decoded `Measurement` depends only on calibration bytes
0..23 and measurement bytes 0..5; calibration bytes 24..25 (reserved and H1)
and measurement bytes 6..7 never influence any output field. -/
theorem C10_tail_bytes_unused (cal cal' meas meas' : ℕ → ℕ)
    (hc : ∀ i, i < 24 → cal i = cal' i) (hm : ∀ i, i < 6 → meas i = meas' i) :
    decode cal meas = decode cal' meas' := by
  have h3 : decode20bit meas 3 = decode20bit meas' 3 :=
    decode20bit_congr 3 (hm 3 (by norm_num)) (hm (3 + 1) (by norm_num))
      (hm (3 + 2) (by norm_num))
  have h0 : decode20bit meas 0 = decode20bit meas' 0 :=
    decode20bit_congr 0 (hm 0 (by norm_num)) (hm (0 + 1) (by norm_num))
      (hm (0 + 2) (by norm_num))
  have hT1 : (decodeCalibration cal).T1 = (decodeCalibration cal').T1 :=
    decodeU16LE_congr 0 (hc 0 (by norm_num)) (hc (0 + 1) (by norm_num))
  have hT2 : (decodeCalibration cal).T2 = (decodeCalibration cal').T2 :=
    decodeS16LE_congr 2 (hc 2 (by norm_num)) (hc (2 + 1) (by norm_num))
  have hT3 : (decodeCalibration cal).T3 = (decodeCalibration cal').T3 :=
    decodeS16LE_congr 4 (hc 4 (by norm_num)) (hc (4 + 1) (by norm_num))
  have hP1 : (decodeCalibration cal).P1 = (decodeCalibration cal').P1 :=
    decodeU16LE_congr 6 (hc 6 (by norm_num)) (hc (6 + 1) (by norm_num))
  have hP2 : (decodeCalibration cal).P2 = (decodeCalibration cal').P2 :=
    decodeS16LE_congr 8 (hc 8 (by norm_num)) (hc (8 + 1) (by norm_num))
  have hP3 : (decodeCalibration cal).P3 = (decodeCalibration cal').P3 :=
    decodeS16LE_congr 10 (hc 10 (by norm_num)) (hc (10 + 1) (by norm_num))
  have hP4 : (decodeCalibration cal).P4 = (decodeCalibration cal').P4 :=
    decodeS16LE_congr 12 (hc 12 (by norm_num)) (hc (12 + 1) (by norm_num))
  have hP5 : (decodeCalibration cal).P5 = (decodeCalibration cal').P5 :=
    decodeS16LE_congr 14 (hc 14 (by norm_num)) (hc (14 + 1) (by norm_num))
  have hP6 : (decodeCalibration cal).P6 = (decodeCalibration cal').P6 :=
    decodeS16LE_congr 16 (hc 16 (by norm_num)) (hc (16 + 1) (by norm_num))
  have hP7 : (decodeCalibration cal).P7 = (decodeCalibration cal').P7 :=
    decodeS16LE_congr 18 (hc 18 (by norm_num)) (hc (18 + 1) (by norm_num))
  have hP8 : (decodeCalibration cal).P8 = (decodeCalibration cal').P8 :=
    decodeS16LE_congr 20 (hc 20 (by norm_num)) (hc (20 + 1) (by norm_num))
  have hP9 : (decodeCalibration cal).P9 = (decodeCalibration cal').P9 :=
    decodeS16LE_congr 22 (hc 22 (by norm_num)) (hc (22 + 1) (by norm_num))
  rw [decode_eq cal meas, decode_eq cal' meas', h3, h0,
    tFine_congr hT1 hT2 hT3, pressurePart_congr hP1 hP2 hP3 hP4 hP5 hP6 hP7 hP8 hP9]

/-- Witness for C10: changing calibration bytes 24, 25 and measurement bytes
6, 7 leaves the sample decode unchanged. -/
theorem C10_tail_bytes_unused_witness :
    decode sampleCal sampleMeas = decode calReservedMod measTailMod :=
  C10_tail_bytes_unused sampleCal calReservedMod sampleMeas measTailMod
    (by decide) (by decide)
